import Mathlib

/-!
Verification of the lifecycle-event core of a container-runtime daemon
(state-transition handler, journald log driver, per-container rate limiter).

Time is modelled as `Int` nanoseconds; Go's zero `time.Time` (`begin.IsZero()`)
is modelled as `Option Int` with `none` for the zero value.  External library
calls (`journal.Send`, `strconv.Atoi`, `time.ParseDuration`,
`loggerutils.ParseLogTag`) are modelled as emitted actions or as function
parameters, since they are not part of this repository.
-/

/-- Embeds the `rateLimit` struct of the journald driver: burst capacity,
interval length (nanoseconds), and the mutable per-interval counters. -/
structure rateLimit where
  Burst : Int
  Interval : Int
  begin : Option Int
  num : Int
  suppressed : Int
  deriving DecidableEq, Repr

/-- The outcome of one `Check` call: whether the message is admitted, the
suppressed count reported for a just-closed interval, and the updated
limiter state. -/
structure CheckResult where
  admitted : Bool
  reported : Int
  state : rateLimit
  deriving DecidableEq, Repr

/-- Embeds `rateLimit.Check`: the Go method reads `time.Now()`; here the
current time is passed explicitly and the mutated receiver is returned. -/
def rateLimit.Check (r : rateLimit) (now : Int) : CheckResult :=
  match r.begin with
  | none =>
    -- Is this the first time? Start the interval.
    ⟨true, 0, { r with suppressed := 0, num := 1, begin := some now }⟩
  | some b =>
    -- Have we left the previous tracked interval?  (`begin.Add(Interval).Before(now)`)
    if b + r.Interval < now then
      ⟨true, r.suppressed, { r with suppressed := 0, num := 1, begin := some now }⟩
    -- Within the interval, but within the burst limit?
    else if r.num < r.Burst then
      ⟨true, 0, { r with num := r.num + 1 }⟩
    -- Too many within the interval!
    else
      ⟨false, 0, { r with suppressed := r.suppressed + 1 }⟩

/-- Embeds `rateLimit.Suppressed`. -/
def rateLimit.Suppressed (r : rateLimit) : Int :=
  r.suppressed

/-- A freshly constructed limiter (`&rateLimit{Burst: b, Interval: i}`):
Go zero values for `begin`, `num`, `suppressed`. -/
def rateLimit.mk0 (burst interval : Int) : rateLimit :=
  { Burst := burst, Interval := interval, begin := none, num := 0, suppressed := 0 }

/-- Runs a sequence of `Check` calls at the given times, pairing each call's
time with its result (whose `state` is threaded into the next call). -/
def runChecks (r : rateLimit) : List Int → List (Int × CheckResult)
  | [] => []
  | t :: ts => (t, r.Check t) :: runChecks (r.Check t).state ts

theorem runChecks_nil (r : rateLimit) : runChecks r [] = [] := rfl

theorem runChecks_cons (r : rateLimit) (t : Int) (ts : List Int) :
    runChecks r (t :: ts) = (t, r.Check t) :: runChecks (r.Check t).state ts := rfl

theorem runChecks_length (r : rateLimit) (ts : List Int) :
    (runChecks r ts).length = ts.length := by
  induction ts generalizing r with
  | nil => rfl
  | cons t ts ih => simp [runChecks_cons, ih]

/-- A `Check` call that reports a non-zero count admitted the message and
started a new interval (`num = 1`, `suppressed = 0`, `begin = now`). -/
theorem Check_reported_ne_zero (r : rateLimit) (now : Int)
    (h : (r.Check now).reported ≠ 0) :
    (r.Check now).admitted = true ∧ (r.Check now).state.num = 1 ∧
      (r.Check now).state.suppressed = 0 ∧ (r.Check now).state.begin = some now := by
  unfold rateLimit.Check at *
  match hb : r.begin with
  | none => simp [hb] at h ⊢
  | some b =>
    simp only [hb] at h ⊢
    by_cases h1 : b + r.Interval < now
    · simp [h1]
    · by_cases h2 : r.num < r.Burst
      · simp [h1, h2] at h
      · simp [h1, h2] at h

/-- A `Check` call on a state with zero suppressed count reports zero. -/
theorem Check_reported_zero_of_suppressed_zero (r : rateLimit) (now : Int)
    (h : r.suppressed = 0) : (r.Check now).reported = 0 := by
  unfold rateLimit.Check
  match hb : r.begin with
  | none => simp
  | some b =>
    by_cases h1 : b + r.Interval < now
    · simp [h1, h]
    · by_cases h2 : r.num < r.Burst
      · simp [h1, h2]
      · simp [h1, h2]

/-- A `Check` call on a state with zero suppressed count that admits the
message leaves the suppressed count at zero. -/
theorem Check_admitted_keeps_suppressed_zero (r : rateLimit) (now : Int)
    (h0 : r.suppressed = 0) (ha : (r.Check now).admitted = true) :
    (r.Check now).state.suppressed = 0 := by
  unfold rateLimit.Check at *
  match hb : r.begin with
  | none => simp [hb]
  | some b =>
    simp only [hb] at ha ⊢
    by_cases h1 : b + r.Interval < now
    · simp [h1]
    · by_cases h2 : r.num < r.Burst
      · simp [h1, h2, h0]
      · simp [h1, h2] at ha

/-- The state of the limiter after `n` calls of the sequence (before the
call at index `n`): the fold of `Check` over the first `n` times. -/
def nthState (r : rateLimit) (ts : List Int) (n : Nat) : rateLimit :=
  (ts.take n).foldl (fun s t => (s.Check t).state) r

theorem nthState_zero (r : rateLimit) (ts : List Int) : nthState r ts 0 = r := rfl

theorem nthState_succ (r : rateLimit) (ts : List Int) (n : Nat) (t : Int)
    (h : ts.get? n = some t) :
    nthState r ts (n + 1) = ((nthState r ts n).Check t).state := by
  induction ts generalizing r n with
  | nil => simp at h
  | cons a ts ih =>
    cases n with
    | zero => simp at h; subst h; rfl
    | succ n =>
      simp only [List.get?] at h
      have := ih ((r.Check a).state) n h
      simpa [nthState, List.take] using this

/-- Entry `n` of `runChecks` is the time `ts[n]` paired with `Check` applied
to the state reached after the first `n` calls. -/
theorem runChecks_get? (r : rateLimit) (ts : List Int) (n : Nat) (t : Int)
    (h : ts.get? n = some t) :
    (runChecks r ts).get? n = some (t, (nthState r ts n).Check t) := by
  induction ts generalizing r n with
  | nil => simp at h
  | cons a ts ih =>
    cases n with
    | zero => simp at h; subst h; rfl
    | succ n =>
      simp only [List.get?] at h
      have := ih ((r.Check a).state) n h
      simpa [runChecks_cons, nthState, List.take] using this

theorem runChecks_get?_isSome (r : rateLimit) (ts : List Int) (n : Nat)
    (p : Int × CheckResult) (h : (runChecks r ts).get? n = some p) :
    ts.get? n = some p.1 ∧ p.2 = (nthState r ts n).Check p.1 := by
  obtain ⟨hlen, -⟩ := List.get?_eq_some.mp h
  have hn : n < ts.length := by rwa [runChecks_length] at hlen
  have ht : ts.get? n = some (ts.get ⟨n, hn⟩) := List.get?_eq_get hn
  have h2 := runChecks_get? r ts n (ts.get ⟨n, hn⟩) ht
  rw [h] at h2
  have h3 := Option.some.inj h2
  subst h3
  exact ⟨ht, rfl⟩

/-- Along a stretch of admitted calls the suppressed counter stays at zero. -/
theorem nthState_suppressed_zero_of_admitted (r : rateLimit) (ts : List Int)
    (i j : Nat) (hij : i ≤ j) (hj : j ≤ ts.length)
    (h0 : (nthState r ts i).suppressed = 0)
    (hadm : ∀ k t, i ≤ k → k < j → ts.get? k = some t →
      ((nthState r ts k).Check t).admitted = true) :
    (nthState r ts j).suppressed = 0 := by
  induction j, hij using Nat.le_induction with
  | base => exact h0
  | succ j hij ih =>
    have hjlen : j < ts.length := Nat.lt_of_succ_le hj
    obtain ⟨t, ht⟩ : ∃ t, ts.get? j = some t :=
      ⟨ts.get ⟨j, hjlen⟩, List.get?_eq_some.mpr ⟨hjlen, rfl⟩⟩
    have hpre : (nthState r ts j).suppressed = 0 :=
      ih (Nat.le_of_succ_le hj) (fun k t hk1 hk2 hk3 =>
        hadm k t hk1 (Nat.lt_succ_of_lt hk2) hk3)
    rw [nthState_succ r ts j t ht]
    exact Check_admitted_keeps_suppressed_zero _ _ hpre (hadm j t hij (Nat.lt_succ_self j) ht)


/-- First-call branch of `Check`: `begin` unset. -/
theorem Check_first (r : rateLimit) (now : Int) (hb : r.begin = none) :
    r.Check now = ⟨true, 0, { r with suppressed := 0, num := 1, begin := some now }⟩ := by
  unfold rateLimit.Check
  rw [hb]

/-- Interval-rollover branch of `Check`: the current time is strictly past
`begin + Interval`, so the old interval is closed (its suppressed count
reported) and a new one starts with this message admitted first. -/
theorem Check_roll (r : rateLimit) (b now : Int) (hb : r.begin = some b)
    (h : b + r.Interval < now) :
    r.Check now =
      ⟨true, r.suppressed, { r with suppressed := 0, num := 1, begin := some now }⟩ := by
  unfold rateLimit.Check
  rw [hb]
  simp [h]

/-- In-interval, under-burst branch of `Check`. -/
theorem Check_burst (r : rateLimit) (b now : Int) (hb : r.begin = some b)
    (h1 : ¬ b + r.Interval < now) (h2 : r.num < r.Burst) :
    r.Check now = ⟨true, 0, { r with num := r.num + 1 }⟩ := by
  unfold rateLimit.Check
  rw [hb]
  simp [h1, h2]

/-- In-interval, over-burst branch of `Check`. -/
theorem Check_reject (r : rateLimit) (b now : Int) (hb : r.begin = some b)
    (h1 : ¬ b + r.Interval < now) (h2 : ¬ r.num < r.Burst) :
    r.Check now = ⟨false, 0, { r with suppressed := r.suppressed + 1 }⟩ := by
  unfold rateLimit.Check
  rw [hb]
  simp [h1, h2]

/-- C4: with `Burst = 3` and `Interval = 1s` (10^9 ns), five `Check` calls
within the first call's one-second interval are admitted, admitted, admitted,
rejected, rejected (all reporting 0 suppressed), and a sixth call after the
interval has elapsed is admitted reporting 2 suppressed. -/
theorem rateLimit_burst3_five_calls (t1 t2 t3 t4 t5 t6 : Int)
    (h2 : t2 ≤ t1 + 1000000000) (h3 : t3 ≤ t1 + 1000000000)
    (h4 : t4 ≤ t1 + 1000000000) (h5 : t5 ≤ t1 + 1000000000)
    (h6 : t1 + 1000000000 < t6) :
    (runChecks (rateLimit.mk0 3 1000000000) [t1, t2, t3, t4, t5, t6]).map
        (fun p => (p.2.admitted, p.2.reported)) =
      [(true, 0), (true, 0), (true, 0), (false, 0), (false, 0), (true, 2)] := by
  have s1 : (rateLimit.mk0 3 1000000000).Check t1 =
      ⟨true, 0, ⟨3, 1000000000, some t1, 1, 0⟩⟩ :=
    Check_first _ t1 rfl
  have s2 : (⟨3, 1000000000, some t1, 1, 0⟩ : rateLimit).Check t2 =
      ⟨true, 0, ⟨3, 1000000000, some t1, 2, 0⟩⟩ :=
    Check_burst _ t1 t2 rfl (show ¬ t1 + (1000000000 : Int) < t2 by omega)
      (by norm_num)
  have s3 : (⟨3, 1000000000, some t1, 2, 0⟩ : rateLimit).Check t3 =
      ⟨true, 0, ⟨3, 1000000000, some t1, 3, 0⟩⟩ :=
    Check_burst _ t1 t3 rfl (show ¬ t1 + (1000000000 : Int) < t3 by omega)
      (by norm_num)
  have s4 : (⟨3, 1000000000, some t1, 3, 0⟩ : rateLimit).Check t4 =
      ⟨false, 0, ⟨3, 1000000000, some t1, 3, 1⟩⟩ :=
    Check_reject _ t1 t4 rfl (show ¬ t1 + (1000000000 : Int) < t4 by omega)
      (by norm_num)
  have s5 : (⟨3, 1000000000, some t1, 3, 1⟩ : rateLimit).Check t5 =
      ⟨false, 0, ⟨3, 1000000000, some t1, 3, 2⟩⟩ :=
    Check_reject _ t1 t5 rfl (show ¬ t1 + (1000000000 : Int) < t5 by omega)
      (by norm_num)
  have s6 : (⟨3, 1000000000, some t1, 3, 2⟩ : rateLimit).Check t6 =
      ⟨true, 2, ⟨3, 1000000000, some t6, 1, 0⟩⟩ :=
    Check_roll _ t1 t6 rfl (show t1 + (1000000000 : Int) < t6 from h6)
  simp [runChecks_cons, runChecks_nil, s1, s2, s3, s4, s5, s6]

/-- Witness for C4 at concrete call times 0, 1, 2, 3, 4, 2·10^9. -/
theorem rateLimit_burst3_five_calls_witness :
    (runChecks (rateLimit.mk0 3 1000000000) [0, 1, 2, 3, 4, 2000000000]).map
        (fun p => (p.2.admitted, p.2.reported)) =
      [(true, 0), (true, 0), (true, 0), (false, 0), (false, 0), (true, 2)] :=
  rateLimit_burst3_five_calls 0 1 2 3 4 2000000000 (by norm_num) (by norm_num)
    (by norm_num) (by norm_num) (by norm_num)

/-- C5 (counterexample): with `now` exactly at `begin + Interval` — i.e. "at"
`begin + Interval`, inside the claim's trigger — the code does NOT close the
interval: the call is rejected (the claim predicts admitted=true), reports 0
(the claim predicts the suppressed count 5), the interval start is left at 0
(the claim predicts begin=now=10), and the suppressed counter is incremented
to 6 rather than reset to 0. -/
theorem rateLimit_boundary_counterexample :
    (0 : Int) + 10 ≤ 10 ∧
    ((⟨1, 10, some 0, 1, 5⟩ : rateLimit).Check 10).admitted = false ∧
    ((⟨1, 10, some 0, 1, 5⟩ : rateLimit).Check 10).reported = 0 ∧
    ((⟨1, 10, some 0, 1, 5⟩ : rateLimit).Check 10).state.begin = some 0 ∧
    ((⟨1, 10, some 0, 1, 5⟩ : rateLimit).Check 10).state.suppressed = 6 := by
  decide

/-- C5 (amended): whenever the current time is strictly past
`begin + Interval`, the old interval is closed: its suppressed count is
returned as the report, a new interval starts with this message counted as
the first admitted (`num = 1`, `suppressed = 0`, `begin = now`), and
`admitted = true` is returned. -/
theorem rateLimit_new_interval (r : rateLimit) (b now : Int)
    (hb : r.begin = some b) (h : b + r.Interval < now) :
    r.Check now =
      ⟨true, r.suppressed, { r with suppressed := 0, num := 1, begin := some now }⟩ := by
  unfold rateLimit.Check
  rw [hb]
  simp [h]

/-- Witness for the amended C5 at a concrete state and time. -/
theorem rateLimit_new_interval_witness :
    (⟨3, 10, some 0, 2, 4⟩ : rateLimit).Check 11 =
      ⟨true, 4, ⟨3, 10, some 11, 1, 0⟩⟩ :=
  rateLimit_new_interval ⟨3, 10, some 0, 2, 4⟩ 0 11 rfl
    (show (0 : Int) + 10 < 11 by norm_num)

/-- C6: across any sequence of `Check` calls on one rate limiter, a call
reporting a non-zero suppressed count is admitted and starts a new interval
(`num = 1`, `suppressed` reset to 0, `begin` set to the call's time) — never
mid-interval; and any later call separated from it only by admitted calls
reports 0, so a closed interval's count is reported at most once and never on
two consecutive admitted calls. -/
theorem rateLimit_suppression_report_invariant (r0 : rateLimit) (ts : List Int)
    (i : Nat) (ti : Int) (ci : CheckResult)
    (hi : (runChecks r0 ts).get? i = some (ti, ci)) (hne : ci.reported ≠ 0) :
    (ci.admitted = true ∧ ci.state.num = 1 ∧ ci.state.suppressed = 0 ∧
        ci.state.begin = some ti) ∧
    (∀ j tj cj, (runChecks r0 ts).get? j = some (tj, cj) → i < j →
      (∀ k tk ck, i < k → k < j →
        (runChecks r0 ts).get? k = some (tk, ck) → ck.admitted = true) →
      cj.reported = 0) := by
  obtain ⟨hti, hci⟩ := runChecks_get?_isSome r0 ts i (ti, ci) hi
  dsimp only at hti hci
  have hfirst := Check_reported_ne_zero (nthState r0 ts i) ti (hci ▸ hne)
  constructor
  · exact ⟨hci ▸ hfirst.1, hci ▸ hfirst.2.1, hci ▸ hfirst.2.2.1, hci ▸ hfirst.2.2.2⟩
  · intro j tj cj hj hij hadm
    obtain ⟨htj, hcj⟩ := runChecks_get?_isSome r0 ts j (tj, cj) hj
    dsimp only at htj hcj
    have hjlen : j < ts.length := (List.get?_eq_some.mp htj).1
    have hstart : (nthState r0 ts (i + 1)).suppressed = 0 := by
      rw [nthState_succ r0 ts i ti hti]
      exact hci ▸ hfirst.2.2.1
    have hzero : (nthState r0 ts j).suppressed = 0 := by
      refine nthState_suppressed_zero_of_admitted r0 ts (i + 1) j hij
        (Nat.le_of_lt hjlen) hstart ?_
      intro k t hk1 hk2 hkt
      have hk := runChecks_get? r0 ts k t hkt
      exact (runChecks_get?_isSome r0 ts k (t, (nthState r0 ts k).Check t) hk).2 ▸
        hadm k t ((nthState r0 ts k).Check t) (Nat.lt_of_succ_le hk1) hk2 hk
    rw [hcj]
    exact Check_reported_zero_of_suppressed_zero _ _ hzero

/-- Witness for C6: limiter with `Burst = 1`, `Interval = 10`, calls at times
0, 1, 2, 20; the call at index 3 reports 2 suppressed, is admitted, starts a
new interval, and every later call reachable only through admitted calls
reports 0. -/
theorem rateLimit_suppression_report_invariant_witness :
    (((⟨true, 2, ⟨1, 10, some 20, 1, 0⟩⟩ : CheckResult).admitted = true ∧
        (⟨true, 2, ⟨1, 10, some 20, 1, 0⟩⟩ : CheckResult).state.num = 1 ∧
        (⟨true, 2, ⟨1, 10, some 20, 1, 0⟩⟩ : CheckResult).state.suppressed = 0 ∧
        (⟨true, 2, ⟨1, 10, some 20, 1, 0⟩⟩ : CheckResult).state.begin = some 20) ∧
    (∀ j tj cj,
      (runChecks (rateLimit.mk0 1 10) [0, 1, 2, 20]).get? j = some (tj, cj) →
      3 < j →
      (∀ k tk ck, 3 < k → k < j →
        (runChecks (rateLimit.mk0 1 10) [0, 1, 2, 20]).get? k = some (tk, ck) →
        ck.admitted = true) →
      cj.reported = 0)) :=
  rateLimit_suppression_report_invariant (rateLimit.mk0 1 10) [0, 1, 2, 20] 3 20
    ⟨true, 2, ⟨1, 10, some 20, 1, 0⟩⟩ (by decide) (by decide)

/-- C10: `Check` admits unconditionally on the first call ever (`begin`
unset) and on any call strictly past the tracked interval, for every
configured `Burst` — including zero and negative values: the burst bound is
never consulted on an interval-starting call. -/
theorem rateLimit_first_and_rollover_admits (r : rateLimit) (now : Int) :
    (r.begin = none → (r.Check now).admitted = true) ∧
    (∀ b, r.begin = some b → b + r.Interval < now →
      (r.Check now).admitted = true) := by
  constructor
  · intro hb
    rw [Check_first r now hb]
  · intro b hb h
    rw [Check_roll r b now hb h]

/-- Witness for C10 with `Burst = -5` (first call) and `Burst = 0`
(interval rollover): both calls are admitted. -/
theorem rateLimit_first_and_rollover_admits_witness :
    ((rateLimit.mk0 (-5) 10).Check 0).admitted = true ∧
    ((⟨0, 10, some 0, 1, 3⟩ : rateLimit).Check 20).admitted = true :=
  ⟨(rateLimit_first_and_rollover_admits (rateLimit.mk0 (-5) 10) 0).1 rfl,
   (rateLimit_first_and_rollover_admits ⟨0, 10, some 0, 1, 3⟩ 20).2 0 rfl
     (show (0 : Int) + 10 < 20 by norm_num)⟩

/-- Journal priorities used by the driver (`journal.PriErr`,
`journal.PriWarning`, `journal.PriInfo`). -/
inductive Priority where
  | PriErr
  | PriWarning
  | PriInfo
  deriving DecidableEq, Repr

/-- Embeds `logger.Message` (the fields the driver reads): the line as a
string and the source tag, one of `stdout` / `stderr` / `event`. -/
structure Message where
  Line : String
  Source : String
  deriving DecidableEq, Repr

/-- One call to the external `journal.Send`: message body, priority, and the
metadata map passed along. -/
structure SendCall where
  body : String
  priority : Priority
  vars : List (String × String)
  deriving DecidableEq, Repr

/-- Embeds the `journald` driver struct: the static metadata map, the
event-flagged copy, and the optional rate limiter.  (The `readers` field,
used only for reading the journal back, plays no part in the claims and is
omitted.) -/
structure journald where
  vars : List (String × String)
  eVars : List (String × String)
  rl : Option rateLimit
  deriving DecidableEq, Repr

/-- Embeds `newRateLimit`: the limiter is built only when both labels are
present and both parse.  `strconv.Atoi` and `time.ParseDuration` are external
library functions, passed in as `Option`-valued parsers. -/
def newRateLimit (atoi : String → Option Int) (parseDuration : String → Option Int)
    (labels : List (String × String)) : Option rateLimit :=
  match labels.lookup "com.meteor.galaxy.log-burst",
        labels.lookup "com.meteor.galaxy.log-interval" with
  | none, none => none
  | none, some _ => none
  | some _, none => none
  | some burstLabel, some intervalLabel =>
    match atoi burstLabel with
    | none => none
    | some burst =>
      match parseDuration intervalLabel with
      | none => none
      | some interval => some (rateLimit.mk0 burst interval)

/-- The body of the synthetic suppression report built by
`sendSuppressedMessage`: `fmt.Sprintf` with the dropped line count. -/
def suppressedBody (suppressed : Int) : String :=
  "\x7b\"type\":\"dropped\",\"lines\":" ++ toString suppressed ++ "\x7d"

/-- Embeds `journald.sendSuppressedMessage`: a `DOCKER_EVENT` message at the
elevated priority describing the suppression. -/
def journald.sendSuppressedMessage (s : journald) (suppressed : Int) : SendCall :=
  ⟨suppressedBody suppressed, Priority.PriWarning, s.eVars⟩

/-- Embeds `journald.Log`.  The Go method calls `journal.Send` and returns
its error; here each `Send` becomes an emitted `SendCall` and the mutated
rate limiter is returned alongside.  The current time feeds `Check`. -/
def journald.Log (s : journald) (msg : Message) (now : Int) :
    List SendCall × journald :=
  if msg.Source = "event" then
    -- Send with DOCKER_EVENT=true at a distinct priority, bypassing the limiter.
    ([⟨msg.Line, Priority.PriWarning, s.eVars⟩], s)
  else
    match s.rl with
    | some rl =>
      let res := rl.Check now
      let s' : journald := { s with rl := some res.state }
      if res.admitted = false then
        ([], s')
      else
        let pre := if 0 < res.reported then [s.sendSuppressedMessage res.reported] else []
        if msg.Source = "stderr" then
          (pre ++ [⟨msg.Line, Priority.PriErr, s.vars⟩], s')
        else
          (pre ++ [⟨msg.Line, Priority.PriInfo, s.vars⟩], s')
    | none =>
      if msg.Source = "stderr" then
        ([⟨msg.Line, Priority.PriErr, s.vars⟩], s)
      else
        ([⟨msg.Line, Priority.PriInfo, s.vars⟩], s)

/-- C3: a message whose source tag is `event` is forwarded unconditionally,
as the only send, at the elevated priority with the event-flagged metadata,
and the driver state — in particular the rate limiter and its counters — is
returned unchanged, whatever state the limiter is in. -/
theorem journald_Log_event_bypasses_rate_limit (s : journald) (msg : Message)
    (now : Int) (h : msg.Source = "event") :
    s.Log msg now = ([⟨msg.Line, Priority.PriWarning, s.eVars⟩], s) := by
  unfold journald.Log
  rw [if_pos h]

/-- Witness for C3: an `event` message sent to a driver whose limiter has
just rejected a burst (`num` at `Burst`, 7 suppressed) is still delivered and
the limiter is untouched. -/
theorem journald_Log_event_bypasses_rate_limit_witness :
    journald.Log ⟨[("K", "V")], [("DOCKER_EVENT", "true"), ("K", "V")],
        some ⟨1, 10, some 0, 1, 7⟩⟩ ⟨"stop", "event"⟩ 5 =
      ([⟨"stop", Priority.PriWarning, [("DOCKER_EVENT", "true"), ("K", "V")]⟩],
        ⟨[("K", "V")], [("DOCKER_EVENT", "true"), ("K", "V")],
          some ⟨1, 10, some 0, 1, 7⟩⟩) :=
  journald_Log_event_bypasses_rate_limit _ _ 5 rfl

/-- Embeds `logger.Context` (the fields `New` reads).  `ExtraAttributes` is a
method on the Go context; its result (after the `strings.ToTitle` key
transform) is modelled as the field `extraAttrs`. -/
structure Context where
  ContainerName : String
  ContainerID : String
  ContainerLabels : List (String × String)
  extraAttrs : List (String × String)

/-- The distinct failure exits of the guarded `New` embedding: journald
unavailable, the unguarded `name[0]` index on an empty container name, the
unguarded `ContainerID[:12]` slice on a short id, and a log-tag parse
error. -/
inductive NewError where
  | notEnabled
  | emptyName
  | shortID
  | tagError
  deriving DecidableEq, Repr

/-- Embeds `New`, the journald driver constructor.  The Go code indexes
`ctx.ContainerName[0]` and slices `ctx.ContainerID[:12]` unconditionally;
this guarded embedding turns each would-be out-of-bounds access into a
distinct error at the exact program point where the access happens
(the name index before the tag parse, the id slice after it).
`journal.Enabled`, `strconv.Atoi`, `time.ParseDuration` and
`loggerutils.ParseLogTag` are external, passed as parameters. -/
def NewJournald (enabled : Bool) (atoi parseDuration : String → Option Int)
    (parseLogTag : Context → Option String) (ctx : Context) :
    Except NewError journald :=
  if enabled = false then
    .error .notEnabled
  else if ctx.ContainerName.length = 0 then
    .error .emptyName
  else
    -- Strip a leading slash from the container name.
    let name := if ctx.ContainerName.front = '/' then ctx.ContainerName.drop 1
                else ctx.ContainerName
    match parseLogTag ctx with
    | none => .error .tagError
    | some tag =>
      if ctx.ContainerID.length < 12 then
        .error .shortID
      else
        let vars := [("CONTAINER_ID", ctx.ContainerID.take 12),
                     ("CONTAINER_ID_FULL", ctx.ContainerID),
                     ("CONTAINER_NAME", name),
                     ("CONTAINER_TAG", tag)] ++ ctx.extraAttrs
        .ok { vars := vars,
              eVars := ("DOCKER_EVENT", "true") :: vars,
              rl := newRateLimit atoi parseDuration ctx.ContainerLabels }

/-- C7: the constructed driver's rate limiter is exactly
`newRateLimit` of the container labels, and `newRateLimit` yields a limiter
if and only if both the burst label and the interval label are present and
both parse; in every other case no limiter is created. -/
theorem newRateLimit_iff_both_labels_parse
    (atoi parseDuration : String → Option Int) :
    (∀ enabled parseLogTag ctx j,
      NewJournald enabled atoi parseDuration parseLogTag ctx = .ok j →
      j.rl = newRateLimit atoi parseDuration ctx.ContainerLabels) ∧
    (∀ labels : List (String × String),
      (newRateLimit atoi parseDuration labels).isSome = true ↔
      ∃ burstLabel intervalLabel,
        labels.lookup "com.meteor.galaxy.log-burst" = some burstLabel ∧
        labels.lookup "com.meteor.galaxy.log-interval" = some intervalLabel ∧
        (atoi burstLabel).isSome = true ∧
        (parseDuration intervalLabel).isSome = true) := by
  constructor
  · intro enabled parseLogTag ctx j h
    unfold NewJournald at h
    by_cases he : enabled = false
    · simp [he] at h
    · by_cases hn : ctx.ContainerName.length = 0
      · simp [he, hn] at h
      · simp only [he, hn, if_false, ite_false] at h
        cases htag : parseLogTag ctx with
        | none => rw [htag] at h; simp at h
        | some tag =>
          rw [htag] at h
          by_cases hid : ctx.ContainerID.length < 12
          · simp [hid] at h
          · simp only [hid, if_false, ite_false] at h
            cases h₂ : h
            · injection h with h
              rw [← h]
  · intro labels
    unfold newRateLimit
    cases hb : labels.lookup "com.meteor.galaxy.log-burst" with
    | none =>
      cases hi : labels.lookup "com.meteor.galaxy.log-interval" <;> simp
    | some burstLabel =>
      cases hi : labels.lookup "com.meteor.galaxy.log-interval" with
      | none => simp
      | some intervalLabel =>
        cases ha : atoi burstLabel with
        | none => simp [ha]
        | some burst =>
          cases hd : parseDuration intervalLabel with
          | none => simp [ha, hd]
          | some interval => simp [ha, hd]

/-- A concrete stand-in for `strconv.Atoi` used in witnesses. -/
def atoiSample : String → Option Int :=
  fun s => if s = "3" then some 3 else none

/-- A concrete stand-in for `time.ParseDuration` used in witnesses. -/
def parseDurationSample : String → Option Int :=
  fun s => if s = "1s" then some 1000000000 else none

/-- A concrete stand-in for `loggerutils.ParseLogTag` used in witnesses. -/
def parseLogTagSample : Context → Option String :=
  fun _ => some ""

/-- A concrete construction context used in witnesses. -/
def ctxSample : Context :=
  { ContainerName := "/name",
    ContainerID := "0123456789abcdef",
    ContainerLabels := [("com.meteor.galaxy.log-burst", "3"),
                        ("com.meteor.galaxy.log-interval", "1s")],
    extraAttrs := [] }

/-- The driver `NewJournald` builds from `ctxSample`. -/
def jSample : journald :=
  { vars := [("CONTAINER_ID", "0123456789ab"),
             ("CONTAINER_ID_FULL", "0123456789abcdef"),
             ("CONTAINER_NAME", "name"),
             ("CONTAINER_TAG", "")],
    eVars := ("DOCKER_EVENT", "true") ::
             [("CONTAINER_ID", "0123456789ab"),
              ("CONTAINER_ID_FULL", "0123456789abcdef"),
              ("CONTAINER_NAME", "name"),
              ("CONTAINER_TAG", "")],
    rl := some (rateLimit.mk0 3 1000000000) }

/-- Witness for C7: `ctxSample` carries both labels and both parse, so the
constructed driver holds a limiter; the iff holds at its label list. -/
theorem newRateLimit_iff_both_labels_parse_witness :
    jSample.rl = newRateLimit atoiSample parseDurationSample
      ctxSample.ContainerLabels ∧
    ((newRateLimit atoiSample parseDurationSample
        ctxSample.ContainerLabels).isSome = true ↔
      ∃ burstLabel intervalLabel,
        ctxSample.ContainerLabels.lookup "com.meteor.galaxy.log-burst" =
          some burstLabel ∧
        ctxSample.ContainerLabels.lookup "com.meteor.galaxy.log-interval" =
          some intervalLabel ∧
        (atoiSample burstLabel).isSome = true ∧
        (parseDurationSample intervalLabel).isSome = true) :=
  ⟨(newRateLimit_iff_both_labels_parse atoiSample parseDurationSample).1
      true parseLogTagSample ctxSample jSample rfl,
   (newRateLimit_iff_both_labels_parse atoiSample parseDurationSample).2
      ctxSample.ContainerLabels⟩

/-- C9: when the container name is non-empty and the container id is at
least 12 bytes, `New` never takes a bounds-error exit (the `name[0]` index
and `ContainerID[:12]` slice are in bounds); a context with an empty name
reaches the empty-name error branch, and one with a short id (name
non-empty, tag parsed) reaches the short-id error branch. -/
theorem NewJournald_index_bounds :
    (∀ enabled atoi parseDuration parseLogTag ctx,
      ctx.ContainerName.length ≠ 0 → 12 ≤ ctx.ContainerID.length →
      NewJournald enabled atoi parseDuration parseLogTag ctx ≠
        .error .emptyName ∧
      NewJournald enabled atoi parseDuration parseLogTag ctx ≠
        .error .shortID) ∧
    (∀ atoi parseDuration parseLogTag ctx,
      ctx.ContainerName.length = 0 →
      NewJournald true atoi parseDuration parseLogTag ctx =
        .error .emptyName) ∧
    (∀ atoi parseDuration parseLogTag ctx tag,
      ctx.ContainerName.length ≠ 0 → parseLogTag ctx = some tag →
      ctx.ContainerID.length < 12 →
      NewJournald true atoi parseDuration parseLogTag ctx =
        .error .shortID) := by
  refine ⟨?_, ?_, ?_⟩
  · intro enabled atoi parseDuration parseLogTag ctx hn hid
    unfold NewJournald
    by_cases he : enabled = false
    · simp [he]
    · cases htag : parseLogTag ctx with
      | none => simp [he, hn, htag]
      | some tag => simp [he, hn, htag, Nat.not_lt.mpr hid]
  · intro atoi parseDuration parseLogTag ctx hn
    unfold NewJournald
    simp [hn]
  · intro atoi parseDuration parseLogTag ctx tag hn htag hid
    unfold NewJournald
    simp [hn, htag, hid]

/-- Witness for C9: the in-bounds context `ctxSample` avoids both bound
errors; an empty-name context and a short-id context each hit their error
branch. -/
theorem NewJournald_index_bounds_witness :
    (NewJournald true atoiSample parseDurationSample parseLogTagSample
        ctxSample ≠ .error .emptyName ∧
      NewJournald true atoiSample parseDurationSample parseLogTagSample
        ctxSample ≠ .error .shortID) ∧
    NewJournald true atoiSample parseDurationSample parseLogTagSample
      ⟨"", "0123456789abcdef", [], []⟩ = .error .emptyName ∧
    NewJournald true atoiSample parseDurationSample parseLogTagSample
      ⟨"/name", "short", [], []⟩ = .error .shortID :=
  ⟨NewJournald_index_bounds.1 true atoiSample parseDurationSample
      parseLogTagSample ctxSample (by decide) (by decide),
   NewJournald_index_bounds.2.1 atoiSample parseDurationSample
      parseLogTagSample ⟨"", "0123456789abcdef", [], []⟩ (by decide),
   NewJournald_index_bounds.2.2 atoiSample parseDurationSample
      parseLogTagSample ⟨"/name", "short", [], []⟩ "" (by decide) rfl
      (by decide)⟩

/-- The `libcontainerd` state kinds dispatched by `StateChanged`. -/
inductive CState where
  | StateOOM
  | StateExit
  | StateRestart
  | StateExitProcess
  | StateStart
  | StateRestore
  | StatePause
  | StateResume
  deriving DecidableEq, Repr

/-- Embeds `libcontainerd.StateInfo` (the fields `StateChanged` reads).
`ExitCode` and `Pid` are unsigned in Go, hence `Nat`. -/
structure StateInfo where
  State : CState
  ExitCode : Nat
  OOMKilled : Bool
  Pid : Nat
  ProcessID : String
  deriving DecidableEq, Repr

/-- An exec-command entry of the container's local exec store. -/
structure ExecConfig where
  ID : String
  ExitCode : Option Int
  Running : Bool
  deriving DecidableEq, Repr

/-- The container fields `StateChanged` touches.  The LogDriver handle is an
opaque identifier (`Option Nat`, `none` for the Go nil after a reset);
`StartedFresh` is the flag `SetRunning` receives distinguishing a fresh
start from a restore. -/
structure Container where
  LogDriver : Option Nat
  Running : Bool
  Pid : Nat
  StartedFresh : Bool
  HasBeenManuallyStopped : Bool
  RestartCount : Int
  Paused : Bool
  Restarting : Bool
  Stopped : Bool
  ExitCode : Nat
  OOMKilled : Bool
  ExecCommands : List ExecConfig
  deriving DecidableEq, Repr

/-- Modelled from the spec: `Container.Reset` (the destructive I/O reset of
`StreamConfig`) "detaches and releases the LogDriver reference (sets it to
none)"; its body lives in container code outside this repository slice.  The
`keepStdin` argument (`false` at every call site here) is carried for
fidelity. -/
def Container.Reset (c : Container) (_keepStdin : Bool) : Container :=
  { c with LogDriver := none }

/-- Modelled from the spec: `Container.SetRunning` — "set running with pid
and a flag distinguishing fresh start from restore"; body outside this
repository slice. -/
def Container.SetRunning (c : Container) (pid : Nat) (fresh : Bool) : Container :=
  { c with Running := true, Pid := pid, StartedFresh := fresh }

/-- Modelled from the spec: `Container.SetStopped` — Exit "set exit status
and metadata"; body outside this repository slice. -/
def Container.SetStopped (c : Container) (e : StateInfo) : Container :=
  { c with Running := false, Restarting := false, Stopped := true,
           ExitCode := e.ExitCode, OOMKilled := e.OOMKilled }

/-- Modelled from the spec: `Container.SetRestarting` — Restart "set
restarting status"; body outside this repository slice. -/
def Container.SetRestarting (c : Container) (e : StateInfo) : Container :=
  { c with Running := false, Restarting := true, Stopped := false,
           ExitCode := e.ExitCode }

/-- The observable effects `StateChanged` performs, in program order: the
completion-counter wait, the destructive reset, a `Log` call on a captured
LogDriver handle, daemon log lines, lifecycle events, cleanup, and the
`ToDisk` persistence call. -/
inductive Act where
  | wait
  | reset
  | driverLog (driver : Option Nat) (msg : Message)
  | logrusError (s : String)
  | logEvent (ev : String)
  | logEventAttrs (ev : String) (attrs : List (String × String))
  | cleanup
  | toDisk
  | closeStreams (execID : String)
  | warn (s : String)
  deriving DecidableEq, Repr

/-- The body of the synthetic stop message:
`fmt.Sprintf` of the exit code (`%d`) and OOM flag (`%v`). -/
def stopMessageBody (exitCode : Nat) (oomKilled : Bool) : String :=
  "\x7b\"type\":\"stop\",\"exitCode\":" ++ toString exitCode ++
    ",\"oomKilled\":" ++ (if oomKilled then "true" else "false") ++ "\x7d"

/-- The outcome of one `StateChanged` call: the mutated container, the
ordered effect trace, and the returned error (`none` = nil). -/
structure StepResult where
  container : Container
  trace : List Act
  result : Option String
  deriving DecidableEq, Repr

/-- Embeds `Daemon.StateChanged` for a container found in the registry.
External outcomes are parameters: `logErr` is what the captured LogDriver's
`Log` returns for the stop message, `toDiskErr` what `c.ToDisk()` returns,
`closeErr` what `execConfig.CloseStreams()` returns. -/
def StateChanged (goos : String) (c : Container) (e : StateInfo)
    (logErr toDiskErr closeErr : Option String) : StepResult :=
  match e.State with
  | .StateOOM =>
    if goos = "windows" then
      ⟨c, [], some "Received StateOOM from libcontainerd on Windows"⟩
    else
      ⟨c, [.logEvent "oom"], none⟩
  | .StateExit =>
    -- Save the LogDriver before calling Reset; Reset sets c.LogDriver to nil.
    let logDriver := c.LogDriver
    let c1 := c.Reset false
    let logTrace :=
      match logErr with
      | some err =>
        [Act.logrusError ("Failed to send stop event to logging driver: " ++ err)]
      | none => []
    let c2 := c1.SetStopped e
    ⟨c2,
     [.wait, .reset,
      .driverLog logDriver ⟨stopMessageBody e.ExitCode e.OOMKilled, "event"⟩] ++
       logTrace ++
       [.logEventAttrs "die" [("exitCode", toString e.ExitCode)], .cleanup, .toDisk],
     toDiskErr⟩
  | .StateRestart =>
    let c1 := c.Reset false
    let c2 := { c1 with RestartCount := c1.RestartCount + 1 }
    let c3 := c2.SetRestarting e
    ⟨c3,
     [.reset, .logEventAttrs "die" [("exitCode", toString e.ExitCode)], .toDisk],
     toDiskErr⟩
  | .StateExitProcess =>
    match c.ExecCommands.find? (fun ec => ec.ID == e.ProcessID) with
    | some execConfig =>
      let closeTrace :=
        match closeErr with
        | some err => [Act.logrusError err]
        | none => []
      -- Field updates on the (pointer) exec config stay visible in the
      -- daemon's store, which is outside this model; the entry is removed
      -- from the container's local store only.
      ⟨{ c with ExecCommands := c.ExecCommands.filter (fun ec => ec.ID ≠ execConfig.ID) },
       [.wait, .closeStreams execConfig.ID] ++ closeTrace, none⟩
    | none =>
      ⟨c, [.warn "Ignoring StateExitProcess but no exec command found"], none⟩
  | .StateStart | .StateRestore =>
    let c1 := c.SetRunning e.Pid (decide (e.State = CState.StateStart))
    let c2 := { c1 with HasBeenManuallyStopped := false }
    match toDiskErr with
    | some err => ⟨c2.Reset false, [.toDisk, .reset], some err⟩
    | none => ⟨c2, [.toDisk, .logEvent "start"], none⟩
  | .StatePause =>
    ⟨{ c with Paused := true }, [.logEvent "pause"], none⟩
  | .StateResume =>
    ⟨{ c with Paused := false }, [.logEvent "unpause"], none⟩

/-- A concrete running container used in witnesses: LogDriver handle 7, one
exec entry. -/
def cSample : Container :=
  { LogDriver := some 7, Running := true, Pid := 42, StartedFresh := true,
    HasBeenManuallyStopped := false, RestartCount := 0, Paused := false,
    Restarting := false, Stopped := false, ExitCode := 0, OOMKilled := false,
    ExecCommands := [⟨"exec-1", none, true⟩] }

/-- C1: on an Exit notification, the handler captures the pre-reset
LogDriver handle; the trace opens with wait, reset, then exactly one driver
`Log` call — through the captured handle `d`, tagged `event`, carrying the
stop JSON body — and the resulting container's LogDriver field is none. -/
theorem StateChanged_exit_stop_via_captured_driver
    (goos : String) (c : Container) (e : StateInfo)
    (logErr toDiskErr closeErr : Option String) (d : Nat)
    (hs : e.State = CState.StateExit) (hd : c.LogDriver = some d) :
    (StateChanged goos c e logErr toDiskErr closeErr).trace.take 3 =
      [Act.wait, Act.reset,
       Act.driverLog (some d) ⟨stopMessageBody e.ExitCode e.OOMKilled, "event"⟩] ∧
    (StateChanged goos c e logErr toDiskErr closeErr).trace.filterMap
        (fun a => match a with
          | Act.driverLog drv m => some (drv, m)
          | _ => none) =
      [(some d, ⟨stopMessageBody e.ExitCode e.OOMKilled, "event"⟩)] ∧
    (StateChanged goos c e logErr toDiskErr closeErr).container.LogDriver = none := by
  simp only [StateChanged, hs]
  cases logErr with
  | none =>
    simp [hd, Container.Reset, Container.SetStopped, List.filterMap]
  | some err =>
    simp [hd, Container.Reset, Container.SetStopped, List.filterMap]

/-- Witness for C1: a concrete exit (code 137, OOM-killed) on a container
holding LogDriver handle 7, with both the stop-message `Log` call and the
persistence failing. -/
theorem StateChanged_exit_stop_via_captured_driver_witness :
    (StateChanged "linux" cSample ⟨CState.StateExit, 137, true, 0, ""⟩
        (some "sink down") (some "disk full") none).trace.take 3 =
      [Act.wait, Act.reset,
       Act.driverLog (some 7) ⟨stopMessageBody 137 true, "event"⟩] ∧
    (StateChanged "linux" cSample ⟨CState.StateExit, 137, true, 0, ""⟩
        (some "sink down") (some "disk full") none).trace.filterMap
        (fun a => match a with
          | Act.driverLog drv m => some (drv, m)
          | _ => none) =
      [(some 7, ⟨stopMessageBody 137 true, "event"⟩)] ∧
    (StateChanged "linux" cSample ⟨CState.StateExit, 137, true, 0, ""⟩
        (some "sink down") (some "disk full") none).container.LogDriver = none :=
  StateChanged_exit_stop_via_captured_driver "linux" cSample
    ⟨CState.StateExit, 137, true, 0, ""⟩ (some "sink down") (some "disk full")
    none 7 rfl rfl

/-- C2: on an Exit notification the stop-message `Log` error is only logged:
whatever `logErr` is, the handler still sets the stopped status, emits the
`die` event with the exit-code attribute, runs cleanup, and returns exactly
the `ToDisk` result; a `Log` failure shows up only as a daemon log line. -/
theorem StateChanged_exit_swallows_log_error
    (goos : String) (c : Container) (e : StateInfo)
    (logErr toDiskErr closeErr : Option String)
    (hs : e.State = CState.StateExit) :
    (StateChanged goos c e logErr toDiskErr closeErr).result = toDiskErr ∧
    (StateChanged goos c e logErr toDiskErr closeErr).container.Stopped = true ∧
    (StateChanged goos c e logErr toDiskErr closeErr).container.Running = false ∧
    Act.logEventAttrs "die" [("exitCode", toString e.ExitCode)] ∈
      (StateChanged goos c e logErr toDiskErr closeErr).trace ∧
    Act.cleanup ∈ (StateChanged goos c e logErr toDiskErr closeErr).trace ∧
    (∀ err, logErr = some err →
      Act.logrusError ("Failed to send stop event to logging driver: " ++ err) ∈
        (StateChanged goos c e logErr toDiskErr closeErr).trace) := by
  simp only [StateChanged, hs]
  cases logErr with
  | none => simp [Container.Reset, Container.SetStopped]
  | some err => simp [Container.Reset, Container.SetStopped]

/-- Witness for C2: the concrete exit of the C1 scenario with a failing log
sink and failing persistence still stops the container, emits `die`, runs
cleanup, logs the sink error, and returns the persistence error. -/
theorem StateChanged_exit_swallows_log_error_witness :
    (StateChanged "linux" cSample ⟨CState.StateExit, 1, false, 0, ""⟩
        (some "sink down") (some "disk full") none).result = some "disk full" ∧
    (StateChanged "linux" cSample ⟨CState.StateExit, 1, false, 0, ""⟩
        (some "sink down") (some "disk full") none).container.Stopped = true ∧
    (StateChanged "linux" cSample ⟨CState.StateExit, 1, false, 0, ""⟩
        (some "sink down") (some "disk full") none).container.Running = false ∧
    Act.logEventAttrs "die" [("exitCode", toString (1 : Nat))] ∈
      (StateChanged "linux" cSample ⟨CState.StateExit, 1, false, 0, ""⟩
        (some "sink down") (some "disk full") none).trace ∧
    Act.cleanup ∈ (StateChanged "linux" cSample ⟨CState.StateExit, 1, false, 0, ""⟩
        (some "sink down") (some "disk full") none).trace ∧
    (∀ err, (some "sink down" : Option String) = some err →
      Act.logrusError ("Failed to send stop event to logging driver: " ++ err) ∈
        (StateChanged "linux" cSample ⟨CState.StateExit, 1, false, 0, ""⟩
          (some "sink down") (some "disk full") none).trace) :=
  StateChanged_exit_swallows_log_error "linux" cSample
    ⟨CState.StateExit, 1, false, 0, ""⟩ (some "sink down") (some "disk full")
    none rfl

/-- C8: on Start or Restore the handler sets running with the pid and the
fresh-start flag, clears the manual-stop flag, and persists; on persistence
failure it destructively resets I/O (LogDriver becomes none) and returns the
error without emitting `start`; on success it emits `start` and returns
nil. -/
theorem StateChanged_start_restore
    (goos : String) (c : Container) (e : StateInfo)
    (logErr toDiskErr closeErr : Option String)
    (hs : e.State = CState.StateStart ∨ e.State = CState.StateRestore) :
    (StateChanged goos c e logErr toDiskErr closeErr).container.Running = true ∧
    (StateChanged goos c e logErr toDiskErr closeErr).container.Pid = e.Pid ∧
    (StateChanged goos c e logErr toDiskErr closeErr).container.StartedFresh =
      decide (e.State = CState.StateStart) ∧
    (StateChanged goos c e logErr toDiskErr
        closeErr).container.HasBeenManuallyStopped = false ∧
    (toDiskErr = none →
      (StateChanged goos c e logErr toDiskErr closeErr).result = none ∧
      Act.logEvent "start" ∈
        (StateChanged goos c e logErr toDiskErr closeErr).trace) ∧
    (∀ err, toDiskErr = some err →
      (StateChanged goos c e logErr toDiskErr closeErr).result = some err ∧
      (StateChanged goos c e logErr toDiskErr closeErr).container.LogDriver =
        none ∧
      Act.reset ∈ (StateChanged goos c e logErr toDiskErr closeErr).trace ∧
      Act.logEvent "start" ∉
        (StateChanged goos c e logErr toDiskErr closeErr).trace) := by
  rcases hs with hs | hs <;>
    · simp only [StateChanged, hs]
      cases toDiskErr with
      | none => simp [Container.SetRunning, Container.Reset, hs]
      | some err => simp [Container.SetRunning, Container.Reset, hs]

/-- Witness for C8: a Restore notification with pid 99 and failing
persistence marks the container running (restore flag), clears the
manual-stop flag, resets I/O, surfaces the error, and does not emit
`start`. -/
theorem StateChanged_start_restore_witness :
    (StateChanged "linux" cSample ⟨CState.StateRestore, 0, false, 99, ""⟩
        none (some "disk full") none).container.Running = true ∧
    (StateChanged "linux" cSample ⟨CState.StateRestore, 0, false, 99, ""⟩
        none (some "disk full") none).container.Pid = 99 ∧
    (StateChanged "linux" cSample ⟨CState.StateRestore, 0, false, 99, ""⟩
        none (some "disk full") none).container.StartedFresh =
      decide (CState.StateRestore = CState.StateStart) ∧
    (StateChanged "linux" cSample ⟨CState.StateRestore, 0, false, 99, ""⟩
        none (some "disk full") none).container.HasBeenManuallyStopped = false ∧
    ((some "disk full" : Option String) = none →
      (StateChanged "linux" cSample ⟨CState.StateRestore, 0, false, 99, ""⟩
        none (some "disk full") none).result = none ∧
      Act.logEvent "start" ∈
        (StateChanged "linux" cSample ⟨CState.StateRestore, 0, false, 99, ""⟩
          none (some "disk full") none).trace) ∧
    (∀ err, (some "disk full" : Option String) = some err →
      (StateChanged "linux" cSample ⟨CState.StateRestore, 0, false, 99, ""⟩
        none (some "disk full") none).result = some err ∧
      (StateChanged "linux" cSample ⟨CState.StateRestore, 0, false, 99, ""⟩
        none (some "disk full") none).container.LogDriver = none ∧
      Act.reset ∈ (StateChanged "linux" cSample
        ⟨CState.StateRestore, 0, false, 99, ""⟩ none (some "disk full")
        none).trace ∧
      Act.logEvent "start" ∉
        (StateChanged "linux" cSample ⟨CState.StateRestore, 0, false, 99, ""⟩
          none (some "disk full") none).trace) :=
  StateChanged_start_restore "linux" cSample
    ⟨CState.StateRestore, 0, false, 99, ""⟩ none (some "disk full") none
    (Or.inr rfl)
